import Mathlib

/-!
Shallow embedding of the authentication/session subsystem of the
Backend-Template repository: the session service (`login`, `refreshToken`,
`logout` from `src/core/services/auth.service.js`) and the identity
verification middleware (`authMiddleware` from
`src/infra/security/auth.middleware.js`), together with symbolic models of
the external collaborators (bcrypt, jsonwebtoken, the SHA-256 digest, and
the Prisma-backed credential store).
-/

namespace BackendTemplate

/-- Account status enum from the Prisma schema: ACTIVE, INACTIVE, DELETED. -/
inductive Status
  | ACTIVE
  | INACTIVE
  | DELETED
deriving DecidableEq, Repr

/-- A JWT claims object, modelled as a JavaScript object: reading an absent
key yields `undefined`, modelled as `none`.  The fields cover every key the
source writes (`userId`, `role`, `username`, `refreshVersion` in
`auth.service.js`) and every key the middleware reads (`id`,
`refresh_version` in `auth.middleware.js`); the two sets are genuinely
distinct property names in the source. -/
structure JwtPayload where
  userId : Option String := none
  role : Option String := none
  username : Option String := none
  refreshVersion : Option Nat := none
  id : Option String := none
  refresh_version : Option Nat := none
deriving DecidableEq, Repr

/-- A signed JWT, standing for its signed serialization.  `jwt.sign(payload,
secret, { expiresIn })` embeds the payload, an issued-at timestamp and an
expiry; two signed tokens are the same string exactly when all components
coincide, so structure equality models string equality of serializations. -/
structure Jwt where
  payload : JwtPayload
  secret : String
  iat : Nat
  exp : Nat
deriving DecidableEq, Repr

/-- `jwt.sign(payload, secret, { expiresIn })` at clock time `now`. -/
def jwtSign (payload : JwtPayload) (secret : String) (now expiresIn : Nat) : Jwt :=
  { payload := payload, secret := secret, iat := now, exp := now + expiresIn }

/-- The two failure classes `jwt.verify` distinguishes:
`JsonWebTokenError` (malformed token or wrong signing key) and
`TokenExpiredError`. -/
inductive JwtError
  | invalidSignature
  | expired
deriving DecidableEq, Repr

/-- `jwt.verify(token, secret)` at clock time `now`: signature is checked
first (wrong key is a `JsonWebTokenError`), then expiry (a token is expired
once the clock reaches `exp`), then the decoded payload is returned. -/
def jwtVerify (t : Jwt) (secret : String) (now : Nat) : Except JwtError JwtPayload :=
  if t.secret ≠ secret then .error .invalidSignature
  else if t.exp ≤ now then .error .expired
  else .ok t.payload

/-- Symbolic value of
`crypto.createHash("sha256").update(token).digest("hex")` applied to
the signed serialization of a refresh token.  The constructor is injective, which
models SHA-256 being collision-free on the tokens the system handles — the
spec relies on exactly this to let the fingerprint detect presentation of
the exact previously issued refresh token. -/
inductive Sha256
  | digest (t : Jwt)
deriving DecidableEq, Repr

/-- Symbolic bcrypt hash of a password.  `bcrypt.compare(p, h)` succeeds
exactly when `h` was produced by hashing `p`. -/
inductive Bcrypt
  | hash (password : String)
deriving DecidableEq, Repr

/-- `bcrypt.compare(password, storedHash)`. -/
def bcryptCompare (password : String) (stored : Bcrypt) : Bool :=
  stored == Bcrypt.hash password

/-- Modelled from the spec: one Credential Store record per user (the Prisma
`User` model restricted to the fields the auth subsystem touches).  The
repository methods the session service calls (`findByUsernameForAuth`,
`findById`, `update`) are not under `src/`; following the spec, the store
record exposes the password hash, status, the nullable refresh-token
fingerprint, and the refresh epoch (`refreshVersion`, the name under which
the service reads it). -/
structure Account where
  id : String
  email : String
  username : String
  name : String
  role : String
  status : Status
  passwordHash : Bcrypt
  refreshTokenHash : Option Sha256 := none
  refreshVersion : Nat := 0
  lastLoginAt : Option Nat := none
deriving DecidableEq, Repr

/-- Modelled from the spec: the Credential Store lookup-by-identifier
(`userRepository.findByUsernameForAuth`), returning the record or null. -/
def findByUsernameForAuth (store : List Account) (username : String) :
    Option Account :=
  store.find? (fun a => a.username == username)

/-- Modelled from the spec: lookup by account id
(`userRepository.findById` / `authServiceRepository.findById`).  The
argument is the value of a JavaScript property read off a decoded token, so
it may be `undefined` (`none`), in which case no record matches. -/
def findById (store : List Account) (id : Option String) : Option Account :=
  match id with
  | none => none
  | some i => store.find? (fun a => a.id == i)

/-- Apply a record update to the (unique) account with the given id,
leaving every other record unchanged. -/
def condUpdate (tid : String) (f : Account → Account) (store : List Account) :
    List Account :=
  store.map (fun a => if a.id == tid then f a else a)

/-- Modelled from the spec: the atomic per-record update of the store
(`userRepository.update(id, data)`).  Prisma `update` throws `P2025` when
no record with the id exists, modelled by returning `none`. -/
def repoUpdate (store : List Account) (tid : String) (f : Account → Account) :
    Option (List Account) :=
  if store.any (fun a => a.id == tid) then
    some (condUpdate tid f store)
  else none

/-- The record update `login` persists: the new refresh fingerprint and
`lastLoginAt = now`, written atomically. -/
def loginUpdate (fingerprint : Sha256) (now : Nat) (a : Account) : Account :=
  { a with refreshTokenHash := some fingerprint, lastLoginAt := some now }

/-- The record update `logout` persists: `refreshTokenHash: null`. -/
def logoutUpdate (a : Account) : Account :=
  { a with refreshTokenHash := none }

/-- Errors surfaced by the session service.  `unauthorized msg` is
`UnauthorizedError(msg)` (HTTP 401); `internalError` stands for any other
propagated exception. -/
inductive ServiceError
  | unauthorized (message : String)
  | internalError
deriving DecidableEq, Repr

/-- The environment configuration the auth code reads (token secrets and
lifetimes, the latter in seconds). -/
structure Env where
  JWT_SECRET : String
  JWT_REFRESH_SECRET : String
  JWT_EXPIRES_IN : Nat
  JWT_REFRESH_EXPIRES_IN : Nat
deriving DecidableEq, Repr

/-- The non-sensitive account summary `login` returns. -/
structure UserSummary where
  id : String
  email : String
  username : String
  name : String
  role : String
deriving DecidableEq, Repr

/-- The value of a successful `login`. -/
structure LoginResult where
  accessToken : Jwt
  refreshToken : Jwt
  user : UserSummary
deriving DecidableEq, Repr

/-- `authService.login({ username, password })` from `auth.service.js`,
with the store state threaded explicitly (the service also persists the new
refresh fingerprint and `lastLoginAt`).  Check order as in the source:
absent-or-DELETED first, then `bcrypt.compare`, then the ACTIVE check; the
access token is signed over `{ userId, role, username, refreshVersion }`
and the refresh token over `{ userId }`. -/
def login (env : Env) (store : List Account) (now : Nat)
    (username password : String) :
    Except ServiceError (List Account × LoginResult) :=
  match findByUsernameForAuth store username with
  | none => .error (.unauthorized "Invalid credentials")
  | some user =>
    if user.status = Status.DELETED then
      .error (.unauthorized "Invalid credentials")
    else if ¬ bcryptCompare password user.passwordHash then
      .error (.unauthorized "Invalid credentials")
    else if user.status ≠ Status.ACTIVE then
      .error (.unauthorized "Account is not active")
    else
      let accessToken := jwtSign
        { userId := some user.id, role := some user.role,
          username := some user.username,
          refreshVersion := some user.refreshVersion }
        env.JWT_SECRET now env.JWT_EXPIRES_IN
      let refreshTok := jwtSign { userId := some user.id }
        env.JWT_REFRESH_SECRET now env.JWT_REFRESH_EXPIRES_IN
      let fingerprint := Sha256.digest refreshTok
      match repoUpdate store user.id (loginUpdate fingerprint now) with
      | none => .error .internalError
      | some store2 =>
        .ok (store2,
          { accessToken := accessToken,
            refreshToken := refreshTok,
            user := { id := user.id, email := user.email,
                      username := user.username, name := user.name,
                      role := user.role } })

/-- `authService.refreshToken({ refreshToken })` from `auth.service.js`:
verify the presented token against the refresh secret, look the account up
by the decoded `userId`, require ACTIVE status, compare the recomputed
SHA-256 fingerprint with the stored one, and on success sign a new access
token over `{ userId, role }` only (the source embeds neither `username`
nor `refreshVersion` here). -/
def refreshToken (env : Env) (store : List Account) (now : Nat)
    (presented : Jwt) : Except ServiceError Jwt :=
  match jwtVerify presented env.JWT_REFRESH_SECRET now with
  | .error _ => .error (.unauthorized "Invalid refresh token")
  | .ok decoded =>
    match findById store decoded.userId with
    | none => .error (.unauthorized "Invalid refresh token")
    | some user =>
      if user.status ≠ Status.ACTIVE then
        .error (.unauthorized "Invalid refresh token")
      else
        let hashedToken := Sha256.digest presented
        if user.refreshTokenHash ≠ some hashedToken then
          .error (.unauthorized "Invalid refresh token")
        else
          .ok (jwtSign { userId := some user.id, role := some user.role }
            env.JWT_SECRET now env.JWT_EXPIRES_IN)

/-- `authService.logout({ userId })` from `auth.service.js`: clears the
stored refresh fingerprint to null; the underlying Prisma `update` fails
only when no record with the id exists. -/
def logout (store : List Account) (userId : String) : Option (List Account) :=
  repoUpdate store userId logoutUpdate

/-- The content of a bearer `Authorization` header: either something that
is not a JWT at all (so `jwt.verify` throws `JsonWebTokenError`), or a
signed token. -/
inductive Bearer
  | garbage
  | token (t : Jwt)
deriving DecidableEq, Repr

/-- The authentication-relevant shape of an incoming request: no
`Authorization` header, a header without the `Bearer ` scheme, or a bearer
value. -/
inductive ReqAuth
  | noHeader
  | badScheme
  | bearer (content : Bearer)
deriving DecidableEq, Repr

/-- `jwt.verify` applied to the raw bearer content. -/
def bearerVerify (c : Bearer) (secret : String) (now : Nat) :
    Except JwtError JwtPayload :=
  match c with
  | .garbage => .error .invalidSignature
  | .token t => jwtVerify t secret now

/-- Per-request outcome of `authMiddleware`.  The four rejections carry the
`UnauthorizedError` messages of the source: "No token provided" (missing token),
"Invalid token", "Token expired", and "Token is not valid" (the epoch
mismatch, the SessionSuperseded of the spec).  `genericError` is the catch-all
`next(error)` branch for anything that is not an `UnauthorizedError`,
`JsonWebTokenError` or `TokenExpiredError` — e.g. the `TypeError` raised by
reading `user.refresh_version` off a null lookup result; it surfaces as a
non-authentication failure. -/
inductive MwOutcome
  | accepted (user : JwtPayload)
  | rejectedMissingToken
  | rejectedInvalidToken
  | rejectedTokenExpired
  | rejectedSessionSuperseded
  | genericError
deriving DecidableEq, Repr

/-- `authMiddleware` from `auth.middleware.js`.  The source reads
`decoded.id` and `decoded.refresh_version` — JavaScript property reads that
yield `undefined` when the token was signed with different key names — and
compares `user.refresh_version != decoded.refresh_version` with loose
inequality, which on (number-or-undefined) values coincides with `Option`
inequality.  The repository resolved as `authServiceRepository` is not
under `src/`; modelled from the spec as the Credential Store lookup whose
returned record exposes the stored refresh epoch.  A null lookup result is
dereferenced without a guard (`user.refresh_version`), which throws and
lands in the generic `next(error)` branch. -/
def authMiddleware (env : Env) (store : List Account) (now : Nat)
    (req : ReqAuth) : MwOutcome :=
  match req with
  | .noHeader => .rejectedMissingToken
  | .badScheme => .rejectedMissingToken
  | .bearer c =>
    match bearerVerify c env.JWT_SECRET now with
    | .error .invalidSignature => .rejectedInvalidToken
    | .error .expired => .rejectedTokenExpired
    | .ok decoded =>
      match findById store decoded.id with
      | none => .genericError
      | some user =>
        if some user.refreshVersion ≠ decoded.refresh_version then
          .rejectedSessionSuperseded
        else
          .accepted decoded

/-! Concrete fixtures used by witnesses and scenario theorems. -/

/-- A concrete environment configuration. -/
def envW : Env :=
  { JWT_SECRET := "acc-secret", JWT_REFRESH_SECRET := "ref-secret",
    JWT_EXPIRES_IN := 900, JWT_REFRESH_EXPIRES_IN := 604800 }

/-- An ACTIVE account whose password is "correct" (alice from the spec). -/
def alice : Account :=
  { id := "u1", email := "alice@example.com", username := "alice",
    name := "Alice", role := "USER", status := Status.ACTIVE,
    passwordHash := Bcrypt.hash "correct" }

/-- Alice after a forced-logout epoch bump: `refreshVersion` advanced to 1. -/
def aliceBumped : Account :=
  { alice with refreshVersion := 1 }

/-- An INACTIVE account whose password is "pw2". -/
def inactiveIvan : Account :=
  { id := "u2", email := "ivan@example.com", username := "ivan",
    name := "Ivan", role := "USER", status := Status.INACTIVE,
    passwordHash := Bcrypt.hash "pw2" }

/-- A DELETED account whose username is "dana". -/
def deletedDana : Account :=
  { id := "u3", email := "dana@example.com", username := "dana",
    name := "Dana", role := "USER", status := Status.DELETED,
    passwordHash := Bcrypt.hash "pw3" }

/-- A well-signed, unexpired access token whose `id` claim names an account
that does not exist in the store. -/
def ghostToken : Jwt :=
  jwtSign { id := some "ghost" } "acc-secret" 0 900

/-- Alice with an active session: the stored fingerprint matches a
previously issued refresh token. -/
def aliceSession : Account :=
  { alice with refreshTokenHash := some (Sha256.digest
      (jwtSign { userId := some "u1" } "ref-secret" 0 604800)) }

/-! Helper lemmas about the credential-store list operations. -/

/-- When the store ids are distinct, the first record matching `u.id` is
`u` itself. -/
theorem find_first_of_nodup {l : List Account} {u : Account}
    (hnd : (l.map Account.id).Nodup) (hu : u ∈ l) :
    l.find? (fun a => a.id == u.id) = some u := by
  induction l with
  | nil => exact absurd hu (List.not_mem_nil u)
  | cons a t ih =>
    rw [List.map_cons, List.nodup_cons] at hnd
    rcases List.mem_cons.mp hu with h | h
    · subst h
      rw [List.find?_cons_of_pos _ (by simp)]
    · have hne : (a.id == u.id) = false := by
        refine beq_eq_false_iff_ne.mpr ?_
        intro he
        exact hnd.1 (he ▸ List.mem_map_of_mem Account.id h)
      rw [List.find?_cons_of_neg _ (by simp [hne])]
      exact ih hnd.2 h

/-- If `u` is in the store, a `repoUpdate` keyed on `u.id` finds a record
to update. -/
theorem any_id_of_mem {l : List Account} {u : Account} (hu : u ∈ l) :
    l.any (fun a => a.id == u.id) = true :=
  List.any_eq_true.mpr ⟨u, hu, by simp⟩

/-- Updating the record with id `u.id`, where `u` is the first record
satisfying a predicate that the update preserves and the store ids are
distinct, leaves the updated `u` as the first record satisfying it. -/
theorem find_after_condUpdate {l : List Account} {u : Account}
    (p : Account → Bool) (f : Account → Account)
    (hp : ∀ a, p (f a) = p a)
    (hnd : (l.map Account.id).Nodup) (hfind : l.find? p = some u) :
    (condUpdate u.id f l).find? p = some (f u) := by
  unfold condUpdate
  induction l with
  | nil => simp at hfind
  | cons a t ih =>
    rw [List.map_cons, List.nodup_cons] at hnd
    by_cases hpa : p a = true
    · rw [List.find?_cons_of_pos _ hpa] at hfind
      have hau : a = u := by injection hfind
      subst hau
      rw [List.map_cons]
      have hcond : (if a.id == a.id then f a else a) = f a := by simp
      rw [hcond, List.find?_cons_of_pos _ (by rw [hp a]; exact hpa)]
    · rw [List.find?_cons_of_neg _ (by simp [hpa])] at hfind
      have hu : u ∈ t := List.mem_of_find?_eq_some hfind
      have hne : (a.id == u.id) = false := by
        refine beq_eq_false_iff_ne.mpr ?_
        intro he
        exact hnd.1 (he ▸ List.mem_map_of_mem Account.id hu)
      rw [List.map_cons]
      have hcond : (if a.id == u.id then f a else a) = a := by simp [hne]
      rw [hcond, List.find?_cons_of_neg _ (by simp [hpa])]
      exact ih hnd.2 hfind

/-- An id-keyed conditional update over the store preserves the list of
ids (so distinctness of ids survives updates). -/
theorem map_id_condUpdate (l : List Account) (tid : String)
    (f : Account → Account) (hf : ∀ a, (f a).id = a.id) :
    (condUpdate tid f l).map Account.id = l.map Account.id := by
  unfold condUpdate
  rw [List.map_map]
  refine List.map_congr_left ?_
  intro a _
  by_cases h : (a.id == tid) = true <;> simp [Function.comp, h, hf]

/-! Characterisation lemmas for the three service operations. -/

/-- A successful `login` in full: the check chain passes and the function
returns the two freshly signed tokens, the account summary, and the store
with the fingerprint and `lastLoginAt` persisted on the account. -/
theorem login_spec (env : Env) (store : List Account) (now : Nat)
    (uname pw : String) (u : Account)
    (hfind : findByUsernameForAuth store uname = some u)
    (hactive : u.status = Status.ACTIVE)
    (hpw : u.passwordHash = Bcrypt.hash pw) :
    login env store now uname pw = .ok
      (condUpdate u.id (loginUpdate (Sha256.digest (jwtSign
          { userId := some u.id }
          env.JWT_REFRESH_SECRET now env.JWT_REFRESH_EXPIRES_IN)) now) store,
       { accessToken := jwtSign
           { userId := some u.id, role := some u.role,
             username := some u.username,
             refreshVersion := some u.refreshVersion }
           env.JWT_SECRET now env.JWT_EXPIRES_IN,
         refreshToken := jwtSign { userId := some u.id }
           env.JWT_REFRESH_SECRET now env.JWT_REFRESH_EXPIRES_IN,
         user := { id := u.id, email := u.email, username := u.username,
                   name := u.name, role := u.role } }) := by
  have hmem : u ∈ store := List.mem_of_find?_eq_some hfind
  have hany : store.any (fun a => a.id == u.id) = true := any_id_of_mem hmem
  unfold login
  rw [hfind]
  simp only [hactive, bcryptCompare, hpw, beq_self_eq_true, not_true,
    repoUpdate, hany]
  simp

/-- Lookup by id still finds the (updated) account after an id-keyed
update. -/
theorem findById_after_condUpdate {store : List Account} {u : Account}
    (f : Account → Account) (hf : ∀ a, (f a).id = a.id)
    (hnd : (store.map Account.id).Nodup) (hmem : u ∈ store) :
    findById (condUpdate u.id f store) (some u.id) = some (f u) := by
  simp only [findById]
  exact find_after_condUpdate (fun a => a.id == u.id) f
    (fun a => by simp only [hf]) hnd (find_first_of_nodup hnd hmem)

/-- Lookup by username still finds the (updated) account after an id-keyed
update that preserves usernames. -/
theorem findByUsername_after_condUpdate {store : List Account} {u : Account}
    {uname : String} (f : Account → Account)
    (hfu : ∀ a, (f a).username = a.username)
    (hnd : (store.map Account.id).Nodup)
    (hfind : findByUsernameForAuth store uname = some u) :
    findByUsernameForAuth (condUpdate u.id f store) uname = some (f u) := by
  unfold findByUsernameForAuth at hfind ⊢
  exact find_after_condUpdate _ f (fun a => by simp only [hfu]) hnd hfind

/-- The updated account is a member of the updated store. -/
theorem mem_condUpdate {store : List Account} {u : Account}
    (f : Account → Account) (hmem : u ∈ store) :
    f u ∈ condUpdate u.id f store := by
  unfold condUpdate
  have h := List.mem_map_of_mem (fun a => if a.id == u.id then f a else a) hmem
  simpa using h

/-- Distinctness of store ids survives an id-preserving update. -/
theorem nodup_after_condUpdate {store : List Account} (tid : String)
    (f : Account → Account) (hf : ∀ a, (f a).id = a.id)
    (hnd : (store.map Account.id).Nodup) :
    ((condUpdate tid f store).map Account.id).Nodup := by
  rw [map_id_condUpdate store tid f hf]
  exact hnd

/-- `logout` on an existing account: unconditional success, clearing the
fingerprint of that account. -/
theorem logout_spec {store : List Account} {u : Account} (hmem : u ∈ store) :
    logout store u.id = some (condUpdate u.id logoutUpdate store) := by
  have hany := any_id_of_mem hmem
  simp [logout, repoUpdate, hany]

/-- A successful `refreshToken` in full: signature, expiry, account status
and fingerprint checks pass, and a fresh access token over
`{ userId, role }` is returned. -/
theorem refreshToken_spec (env : Env) (store : List Account) (now : Nat)
    (t : Jwt) (u : Account)
    (hsec : t.secret = env.JWT_REFRESH_SECRET)
    (hexp : now < t.exp)
    (hfind : findById store t.payload.userId = some u)
    (hactive : u.status = Status.ACTIVE)
    (hhash : u.refreshTokenHash = some (Sha256.digest t)) :
    refreshToken env store now t = .ok
      (jwtSign { userId := some u.id, role := some u.role }
        env.JWT_SECRET now env.JWT_EXPIRES_IN) := by
  unfold refreshToken jwtVerify
  rw [hsec]
  simp only [ne_eq, not_true_eq_false, if_false, Nat.not_le.mpr hexp, if_neg]
  rw [hfind]
  simp [hactive, hhash]

/-- `refreshToken` rejects any presented token whose fingerprint differs
from the stored one (or that fails verification), with the single error
`UnauthorizedError("Invalid refresh token")`. -/
theorem refreshToken_mismatch (env : Env) (store : List Account) (now : Nat)
    (t : Jwt) (u : Account)
    (hsec : t.secret = env.JWT_REFRESH_SECRET)
    (hfind : findById store t.payload.userId = some u)
    (hactive : u.status = Status.ACTIVE)
    (hhash : u.refreshTokenHash ≠ some (Sha256.digest t)) :
    refreshToken env store now t
      = .error (.unauthorized "Invalid refresh token") := by
  unfold refreshToken jwtVerify
  rw [hsec]
  by_cases hexp : t.exp ≤ now
  · simp [hexp]
  · simp only [ne_eq, not_true_eq_false, if_false, hexp]
    rw [hfind]
    simp [hactive, hhash]

/-! Claim theorems.  Each theorem settles one claim of the specification
against the embedded code. -/

/-- Claim C1 (behaviour the code actually has, refuting the claimed
SessionSuperseded rejection): every access token minted by `login`,
presented to `authMiddleware` while cryptographically valid and unexpired
— against any store state, including one where the stored refresh epoch
was bumped after issuance — produces `genericError`, not
`rejectedSessionSuperseded` and not acceptance.  The cause: `login` signs
the claims `userId` and `refreshVersion`, while the middleware reads
`decoded.id` and `decoded.refresh_version`; `decoded.id` is undefined, the
account lookup returns null, and the unguarded `user.refresh_version` read
throws, landing in the generic `next(error)` branch. -/
theorem C1_login_token_yields_generic_error (env : Env)
    (store store3 : List Account) (now now2 : Nat)
    (uname pw : String) (u : Account)
    (hfind : findByUsernameForAuth store uname = some u)
    (hactive : u.status = Status.ACTIVE)
    (hpw : u.passwordHash = Bcrypt.hash pw)
    (hexp : now2 < now + env.JWT_EXPIRES_IN) :
    ∃ store2 res,
      login env store now uname pw = .ok (store2, res) ∧
      authMiddleware env store3 now2 (.bearer (.token res.accessToken))
        = .genericError := by
  refine ⟨_, _, login_spec env store now uname pw u hfind hactive hpw, ?_⟩
  have h1 : bearerVerify
      (.token (jwtSign
        { userId := some u.id, role := some u.role,
          username := some u.username,
          refreshVersion := some u.refreshVersion }
        env.JWT_SECRET now env.JWT_EXPIRES_IN)) env.JWT_SECRET now2
      = .ok { userId := some u.id, role := some u.role,
              username := some u.username,
              refreshVersion := some u.refreshVersion } := by
    simp only [bearerVerify, jwtVerify, jwtSign]
    simp [Nat.not_le.mpr hexp]
  simp only [authMiddleware, h1]
  simp [findById]

/-- Claim C1 witness: alice logs in at epoch 0; her stored epoch is bumped
to 1; presenting the still-valid access token ends in the generic error,
not SessionSuperseded. -/
theorem C1_login_token_yields_generic_error_witness :
    ∃ store2 res,
      login envW [alice] 0 "alice" "correct" = .ok (store2, res) ∧
      authMiddleware envW [aliceBumped] 1 (.bearer (.token res.accessToken))
        = .genericError :=
  C1_login_token_yields_generic_error envW [alice] [aliceBumped] 0 1
    "alice" "correct" alice (by decide) (by decide) (by decide) (by decide)

/-- Claim C2 (behaviour the code actually has, refuting the claimed epoch
embedding): the access token minted by any successful `refreshToken` call
carries no `refreshVersion` claim at all (and no `username` claim); the
source signs only `{ userId, role }` there. -/
theorem C2_refresh_token_omits_epoch (env : Env) (store : List Account)
    (now : Nat) (presented tok : Jwt)
    (hok : refreshToken env store now presented = .ok tok) :
    tok.payload.refreshVersion = none ∧ tok.payload.username = none := by
  unfold refreshToken at hok
  split at hok
  · exact absurd hok (by simp)
  · split at hok
    · exact absurd hok (by simp)
    · split at hok
      · exact absurd hok (by simp)
      · dsimp only [] at hok
        split at hok
        · exact absurd hok (by simp)
        · injection hok with h
          rw [← h]
          exact ⟨rfl, rfl⟩

/-- Claim C2 witness: a concrete successful refresh whose minted token has
no epoch claim. -/
theorem C2_refresh_token_omits_epoch_witness :
    (jwtSign { userId := some "u1", role := some "USER" }
        "acc-secret" 0 900).payload.refreshVersion = none ∧
    (jwtSign { userId := some "u1", role := some "USER" }
        "acc-secret" 0 900).payload.username = none :=
  C2_refresh_token_omits_epoch envW [aliceSession] 0
    (jwtSign { userId := some "u1" } "ref-secret" 0 604800)
    (jwtSign { userId := some "u1", role := some "USER" } "acc-secret" 0 900)
    rfl

/-- Claim C3: for every ACTIVE account whose password verifies against the
stored bcrypt hash, `login` succeeds and the `refreshVersion` claim
embedded in the returned access token equals the stored refresh epoch of
the account at issuance time. -/
theorem C3_login_embeds_current_epoch (env : Env) (store : List Account)
    (now : Nat) (uname pw : String) (u : Account)
    (hfind : findByUsernameForAuth store uname = some u)
    (hactive : u.status = Status.ACTIVE)
    (hpw : u.passwordHash = Bcrypt.hash pw) :
    ∃ store2 res, login env store now uname pw = .ok (store2, res) ∧
      res.accessToken.payload.refreshVersion = some u.refreshVersion :=
  ⟨_, _, login_spec env store now uname pw u hfind hactive hpw, rfl⟩

/-- Claim C3 witness: alice logs in with the correct password. -/
theorem C3_login_embeds_current_epoch_witness :
    ∃ store2 res, login envW [alice] 0 "alice" "correct" = .ok (store2, res) ∧
      res.accessToken.payload.refreshVersion = some alice.refreshVersion :=
  C3_login_embeds_current_epoch envW [alice] 0 "alice" "correct" alice
    (by decide) (by decide) (by decide)

/-- Claim C4: a `login` followed immediately by `refresh` with the
returned refresh token succeeds and yields a syntactically valid,
unexpired access token; the fingerprint stored at login (the SHA-256
digest of the signed refresh token) is exactly what `refresh` recomputes
and compares, as the exhibited stored record shows. -/
theorem C4_login_then_refresh (env : Env) (store : List Account) (now : Nat)
    (uname pw : String) (u : Account)
    (hnd : (store.map Account.id).Nodup)
    (hfind : findByUsernameForAuth store uname = some u)
    (hactive : u.status = Status.ACTIVE)
    (hpw : u.passwordHash = Bcrypt.hash pw)
    (hrd : 0 < env.JWT_REFRESH_EXPIRES_IN)
    (had : 0 < env.JWT_EXPIRES_IN) :
    ∃ store2 res newTok,
      login env store now uname pw = .ok (store2, res) ∧
      findById store2 (some u.id)
        = some (loginUpdate (Sha256.digest res.refreshToken) now u) ∧
      refreshToken env store2 now res.refreshToken = .ok newTok ∧
      jwtVerify newTok env.JWT_SECRET now = .ok newTok.payload := by
  have hmem : u ∈ store := List.mem_of_find?_eq_some hfind
  have hfid := findById_after_condUpdate
    (loginUpdate (Sha256.digest (jwtSign { userId := some u.id }
      env.JWT_REFRESH_SECRET now env.JWT_REFRESH_EXPIRES_IN)) now)
    (fun _ => rfl) hnd hmem
  refine ⟨_, _,
    jwtSign { userId := some u.id, role := some u.role }
      env.JWT_SECRET now env.JWT_EXPIRES_IN,
    login_spec env store now uname pw u hfind hactive hpw, ?_, ?_, ?_⟩
  · exact hfid
  · exact refreshToken_spec env _ now _
      (loginUpdate (Sha256.digest (jwtSign { userId := some u.id }
        env.JWT_REFRESH_SECRET now env.JWT_REFRESH_EXPIRES_IN)) now u)
      rfl (Nat.lt_add_of_pos_right hrd) hfid hactive rfl
  · simp only [jwtVerify, jwtSign]
    simp [Nat.not_le.mpr (Nat.lt_add_of_pos_right had)]

/-- Claim C4 witness: alice logs in and immediately refreshes. -/
theorem C4_login_then_refresh_witness :
    ∃ store2 res newTok,
      login envW [alice] 0 "alice" "correct" = .ok (store2, res) ∧
      findById store2 (some alice.id)
        = some (loginUpdate (Sha256.digest res.refreshToken) 0 alice) ∧
      refreshToken envW store2 0 res.refreshToken = .ok newTok ∧
      jwtVerify newTok envW.JWT_SECRET 0 = .ok newTok.payload :=
  C4_login_then_refresh envW [alice] 0 "alice" "correct" alice (by decide)
    (by decide) (by decide) (by decide) (by decide) (by decide)

/-- Claim C5: `login`, then `logout` for that account, then `refresh`
presenting the refresh token issued at the login fails with
`InvalidRefreshToken` (at any refresh time); the exhibited post-logout
record has a null stored fingerprint. -/
theorem C5_refresh_after_logout_fails (env : Env) (store : List Account)
    (now now2 : Nat) (uname pw : String) (u : Account)
    (hnd : (store.map Account.id).Nodup)
    (hfind : findByUsernameForAuth store uname = some u)
    (hactive : u.status = Status.ACTIVE)
    (hpw : u.passwordHash = Bcrypt.hash pw) :
    ∃ store2 res store3 u3,
      login env store now uname pw = .ok (store2, res) ∧
      logout store2 u.id = some store3 ∧
      findById store3 (some u.id) = some u3 ∧
      u3.refreshTokenHash = none ∧
      refreshToken env store3 now2 res.refreshToken
        = .error (.unauthorized "Invalid refresh token") := by
  have hmem : u ∈ store := List.mem_of_find?_eq_some hfind
  have hnd2 := nodup_after_condUpdate u.id
    (loginUpdate (Sha256.digest (jwtSign { userId := some u.id }
      env.JWT_REFRESH_SECRET now env.JWT_REFRESH_EXPIRES_IN)) now)
    (fun _ => rfl) hnd
  have hmem2 := mem_condUpdate
    (loginUpdate (Sha256.digest (jwtSign { userId := some u.id }
      env.JWT_REFRESH_SECRET now env.JWT_REFRESH_EXPIRES_IN)) now) hmem
  have hfid3 := findById_after_condUpdate
    (u := loginUpdate (Sha256.digest (jwtSign { userId := some u.id }
      env.JWT_REFRESH_SECRET now env.JWT_REFRESH_EXPIRES_IN)) now u)
    logoutUpdate (fun _ => rfl) hnd2 hmem2
  refine ⟨_, _,
    condUpdate u.id logoutUpdate
      (condUpdate u.id (loginUpdate (Sha256.digest (jwtSign
        { userId := some u.id }
        env.JWT_REFRESH_SECRET now env.JWT_REFRESH_EXPIRES_IN)) now) store),
    logoutUpdate (loginUpdate (Sha256.digest (jwtSign { userId := some u.id }
      env.JWT_REFRESH_SECRET now env.JWT_REFRESH_EXPIRES_IN)) now u),
    login_spec env store now uname pw u hfind hactive hpw, ?_, ?_, rfl, ?_⟩
  · exact logout_spec (u := loginUpdate (Sha256.digest (jwtSign
      { userId := some u.id }
      env.JWT_REFRESH_SECRET now env.JWT_REFRESH_EXPIRES_IN)) now u) hmem2
  · exact hfid3
  · exact refreshToken_mismatch env _ now2 _
      (logoutUpdate (loginUpdate (Sha256.digest (jwtSign { userId := some u.id }
        env.JWT_REFRESH_SECRET now env.JWT_REFRESH_EXPIRES_IN)) now u))
      rfl hfid3 hactive (by simp [logoutUpdate])

/-- Claim C5 witness: alice logs in, logs out, then presents the refresh
token from the login. -/
theorem C5_refresh_after_logout_fails_witness :
    ∃ store2 res store3 u3,
      login envW [alice] 0 "alice" "correct" = .ok (store2, res) ∧
      logout store2 alice.id = some store3 ∧
      findById store3 (some alice.id) = some u3 ∧
      u3.refreshTokenHash = none ∧
      refreshToken envW store3 0 res.refreshToken
        = .error (.unauthorized "Invalid refresh token") :=
  C5_refresh_after_logout_fails envW [alice] 0 0 "alice" "correct" alice
    (by decide) (by decide) (by decide) (by decide)

/-- Claim C6: `logout` on an existing account is idempotent: two calls in
a row both succeed unconditionally, and after each call the stored
fingerprint of the account is null. -/
theorem C6_logout_idempotent (store : List Account) (u : Account)
    (hnd : (store.map Account.id).Nodup) (hmem : u ∈ store) :
    ∃ s1 s2 u1 u2,
      logout store u.id = some s1 ∧
      findById s1 (some u.id) = some u1 ∧ u1.refreshTokenHash = none ∧
      logout s1 u.id = some s2 ∧
      findById s2 (some u.id) = some u2 ∧ u2.refreshTokenHash = none := by
  have hnd1 : ((condUpdate u.id logoutUpdate store).map Account.id).Nodup :=
    nodup_after_condUpdate u.id logoutUpdate (fun _ => rfl) hnd
  have hmem1 : logoutUpdate u ∈ condUpdate u.id logoutUpdate store :=
    mem_condUpdate logoutUpdate hmem
  refine ⟨condUpdate u.id logoutUpdate store,
    condUpdate u.id logoutUpdate (condUpdate u.id logoutUpdate store),
    logoutUpdate u, logoutUpdate (logoutUpdate u),
    logout_spec hmem, ?_, rfl, ?_, ?_, rfl⟩
  · exact findById_after_condUpdate logoutUpdate (fun _ => rfl) hnd hmem
  · exact logout_spec (u := logoutUpdate u) hmem1
  · exact findById_after_condUpdate (u := logoutUpdate u) logoutUpdate
      (fun _ => rfl) hnd1 hmem1

/-- Claim C6 witness: double logout of an account with an active
session. -/
theorem C6_logout_idempotent_witness :
    ∃ s1 s2 u1 u2,
      logout [aliceSession] aliceSession.id = some s1 ∧
      findById s1 (some aliceSession.id) = some u1 ∧
      u1.refreshTokenHash = none ∧
      logout s1 aliceSession.id = some s2 ∧
      findById s2 (some aliceSession.id) = some u2 ∧
      u2.refreshTokenHash = none :=
  C6_logout_idempotent [aliceSession] aliceSession (by decide) (by decide)

/-- Claim C7: a login attempt for an unknown identifier and a login
attempt against a DELETED account fail with literally the same error
value, `UnauthorizedError("Invalid credentials")` — identical kind and
message, revealing nothing about whether a deleted account exists. -/
theorem C7_absent_and_deleted_identical (env : Env) (store : List Account)
    (now : Nat) (uname pw : String) :
    (findByUsernameForAuth store uname = none →
      login env store now uname pw
        = .error (.unauthorized "Invalid credentials")) ∧
    (∀ u, findByUsernameForAuth store uname = some u →
      u.status = Status.DELETED →
      login env store now uname pw
        = .error (.unauthorized "Invalid credentials")) := by
  constructor
  · intro h
    unfold login
    rw [h]
  · intro u h hd
    unfold login
    rw [h]
    simp [hd]

/-- Claim C7 witness: bob does not exist; dana is DELETED and her password
is even correct; both logins produce the identical error value. -/
theorem C7_absent_and_deleted_identical_witness :
    login envW [alice, deletedDana] 0 "bob" "anything"
      = .error (.unauthorized "Invalid credentials") ∧
    login envW [alice, deletedDana] 0 "dana" "pw3"
      = .error (.unauthorized "Invalid credentials") :=
  ⟨(C7_absent_and_deleted_identical envW [alice, deletedDana] 0
      "bob" "anything").1 (by decide),
   (C7_absent_and_deleted_identical envW [alice, deletedDana] 0
      "dana" "pw3").2 deletedDana (by decide) (by decide)⟩

/-- Claim C8: for an INACTIVE account, login with the correct password
fails with `AccountNotActive`, while login with a wrong password fails
with `InvalidCredentials` — the status check runs only after password
verification succeeds. -/
theorem C8_inactive_checked_after_password (env : Env)
    (store : List Account) (now : Nat) (uname pw pw2 : String)
    (u : Account)
    (hfind : findByUsernameForAuth store uname = some u)
    (hinactive : u.status = Status.INACTIVE) :
    (u.passwordHash = Bcrypt.hash pw →
      login env store now uname pw
        = .error (.unauthorized "Account is not active")) ∧
    (u.passwordHash ≠ Bcrypt.hash pw2 →
      login env store now uname pw2
        = .error (.unauthorized "Invalid credentials")) := by
  constructor
  · intro hpw
    unfold login
    rw [hfind]
    simp [hinactive, bcryptCompare, hpw]
  · intro hpw
    have hb : (u.passwordHash == Bcrypt.hash pw2) = false :=
      beq_eq_false_iff_ne.mpr hpw
    unfold login
    rw [hfind]
    simp [hinactive, bcryptCompare, hb]

/-- Claim C8 witness: ivan is INACTIVE; the correct password yields the
not-active error, a wrong password yields the credentials error. -/
theorem C8_inactive_checked_after_password_witness :
    login envW [inactiveIvan] 0 "ivan" "pw2"
      = .error (.unauthorized "Account is not active") ∧
    login envW [inactiveIvan] 0 "ivan" "wrong"
      = .error (.unauthorized "Invalid credentials") :=
  ⟨(C8_inactive_checked_after_password envW [inactiveIvan] 0 "ivan"
      "pw2" "x" inactiveIvan (by decide) (by decide)).1 (by decide),
   (C8_inactive_checked_after_password envW [inactiveIvan] 0 "ivan"
      "x" "wrong" inactiveIvan (by decide) (by decide)).2 (by decide)⟩

/-- Claim C9: two successive successful logins (at distinct times, so the
signed refresh tokens differ); refresh with the token of the first login
fails with `InvalidRefreshToken` (its stored fingerprint was overwritten
by the second login), while refresh with the token of the second login
succeeds. -/
theorem C9_second_login_supersedes (env : Env) (store : List Account)
    (now1 now2 : Nat) (uname pw : String) (u : Account)
    (hnd : (store.map Account.id).Nodup)
    (hfind : findByUsernameForAuth store uname = some u)
    (hactive : u.status = Status.ACTIVE)
    (hpw : u.passwordHash = Bcrypt.hash pw)
    (hlt : now1 < now2)
    (hrd : 0 < env.JWT_REFRESH_EXPIRES_IN) :
    ∃ store2 res1 store3 res2 newTok,
      login env store now1 uname pw = .ok (store2, res1) ∧
      login env store2 now2 uname pw = .ok (store3, res2) ∧
      refreshToken env store3 now2 res1.refreshToken
        = .error (.unauthorized "Invalid refresh token") ∧
      refreshToken env store3 now2 res2.refreshToken = .ok newTok := by
  have hmem : u ∈ store := List.mem_of_find?_eq_some hfind
  have hfind2 := findByUsername_after_condUpdate
    (loginUpdate (Sha256.digest (jwtSign { userId := some u.id }
      env.JWT_REFRESH_SECRET now1 env.JWT_REFRESH_EXPIRES_IN)) now1)
    (fun _ => rfl) hnd hfind
  have hnd2 := nodup_after_condUpdate u.id
    (loginUpdate (Sha256.digest (jwtSign { userId := some u.id }
      env.JWT_REFRESH_SECRET now1 env.JWT_REFRESH_EXPIRES_IN)) now1)
    (fun _ => rfl) hnd
  have hmem2 := mem_condUpdate
    (loginUpdate (Sha256.digest (jwtSign { userId := some u.id }
      env.JWT_REFRESH_SECRET now1 env.JWT_REFRESH_EXPIRES_IN)) now1) hmem
  have hfid3 := findById_after_condUpdate
    (u := loginUpdate (Sha256.digest (jwtSign { userId := some u.id }
      env.JWT_REFRESH_SECRET now1 env.JWT_REFRESH_EXPIRES_IN)) now1 u)
    (loginUpdate (Sha256.digest (jwtSign { userId := some u.id }
      env.JWT_REFRESH_SECRET now2 env.JWT_REFRESH_EXPIRES_IN)) now2)
    (fun _ => rfl) hnd2 hmem2
  have hneq : jwtSign { userId := some u.id }
      env.JWT_REFRESH_SECRET now2 env.JWT_REFRESH_EXPIRES_IN
      ≠ jwtSign { userId := some u.id }
      env.JWT_REFRESH_SECRET now1 env.JWT_REFRESH_EXPIRES_IN := by
    intro h
    have h2 := congrArg Jwt.iat h
    simp only [jwtSign] at h2
    omega
  refine ⟨_, _,
    condUpdate u.id
      (loginUpdate (Sha256.digest (jwtSign { userId := some u.id }
        env.JWT_REFRESH_SECRET now2 env.JWT_REFRESH_EXPIRES_IN)) now2)
      (condUpdate u.id
        (loginUpdate (Sha256.digest (jwtSign { userId := some u.id }
          env.JWT_REFRESH_SECRET now1 env.JWT_REFRESH_EXPIRES_IN)) now1) store),
    { accessToken := jwtSign
        { userId := some u.id, role := some u.role,
          username := some u.username,
          refreshVersion := some u.refreshVersion }
        env.JWT_SECRET now2 env.JWT_EXPIRES_IN,
      refreshToken := jwtSign { userId := some u.id }
        env.JWT_REFRESH_SECRET now2 env.JWT_REFRESH_EXPIRES_IN,
      user := { id := u.id, email := u.email, username := u.username,
                name := u.name, role := u.role } },
    jwtSign { userId := some u.id, role := some u.role }
      env.JWT_SECRET now2 env.JWT_EXPIRES_IN,
    login_spec env store now1 uname pw u hfind hactive hpw, ?_, ?_, ?_⟩
  · exact login_spec env _ now2 uname pw
      (loginUpdate (Sha256.digest (jwtSign { userId := some u.id }
        env.JWT_REFRESH_SECRET now1 env.JWT_REFRESH_EXPIRES_IN)) now1 u)
      hfind2 hactive hpw
  · exact refreshToken_mismatch env _ now2 _
      (loginUpdate (Sha256.digest (jwtSign { userId := some u.id }
        env.JWT_REFRESH_SECRET now2 env.JWT_REFRESH_EXPIRES_IN)) now2
        (loginUpdate (Sha256.digest (jwtSign { userId := some u.id }
          env.JWT_REFRESH_SECRET now1 env.JWT_REFRESH_EXPIRES_IN)) now1 u))
      rfl hfid3 hactive (by simp [loginUpdate, hneq])
  · exact refreshToken_spec env _ now2 _
      (loginUpdate (Sha256.digest (jwtSign { userId := some u.id }
        env.JWT_REFRESH_SECRET now2 env.JWT_REFRESH_EXPIRES_IN)) now2
        (loginUpdate (Sha256.digest (jwtSign { userId := some u.id }
          env.JWT_REFRESH_SECRET now1 env.JWT_REFRESH_EXPIRES_IN)) now1 u))
      rfl (Nat.lt_add_of_pos_right hrd) hfid3 hactive rfl

/-- Claim C9 witness: alice logs in at times 0 and 1; the refresh token
from the first login is rejected, the one from the second is accepted. -/
theorem C9_second_login_supersedes_witness :
    ∃ store2 res1 store3 res2 newTok,
      login envW [alice] 0 "alice" "correct" = .ok (store2, res1) ∧
      login envW store2 1 "alice" "correct" = .ok (store3, res2) ∧
      refreshToken envW store3 1 res1.refreshToken
        = .error (.unauthorized "Invalid refresh token") ∧
      refreshToken envW store3 1 res2.refreshToken = .ok newTok :=
  C9_second_login_supersedes envW [alice] 0 1 "alice" "correct" alice
    (by decide) (by decide) (by decide) (by decide) (by decide) (by decide)

/-- Claim C10: a token that passes signature and expiry verification but
whose `id` claim has no record in the store is neither accepted nor
rejected with any of the four authentication rejections: the null lookup
result is dereferenced without a guard, so the request ends in the
generic, non-authentication error branch (a distinct constructor from
`accepted` and from all four rejections of `MwOutcome`). -/
theorem C10_null_lookup_generic_error (env : Env) (store : List Account)
    (now : Nat) (t : Jwt)
    (hsec : t.secret = env.JWT_SECRET) (hexp : now < t.exp)
    (hnone : findById store t.payload.id = none) :
    authMiddleware env store now (.bearer (.token t)) = .genericError := by
  have h1 : bearerVerify (.token t) env.JWT_SECRET now = .ok t.payload := by
    simp only [bearerVerify, jwtVerify, hsec]
    simp [Nat.not_le.mpr hexp]
  simp only [authMiddleware, h1, hnone]

/-- Claim C10 witness: a well-signed, unexpired token naming the
nonexistent account "ghost". -/
theorem C10_null_lookup_generic_error_witness :
    authMiddleware envW [alice] 0 (.bearer (.token ghostToken))
      = .genericError :=
  C10_null_lookup_generic_error envW [alice] 0 ghostToken (by decide)
    (by decide) (by decide)

end BackendTemplate
